import Mathlib

/-!
Shallow embedding of the Lumina Forge image-editing client.

The embedding follows the TypeScript source:
* `types.ts` (src/unnamed/part_001): the data model (`ProcessedImage`,
  `HistoryItem`, `AppState`).
* `App.tsx` (src/unnamed/part_000): the session controller — history state,
  `getClosestAspectRatio`, and the handlers `handleImageSelected`,
  `handleCroppedImageSelected`, `handleResetRequest`, `handleConfirmReset`,
  `handleGenerate`, `handleDenoise`, `handleAutoEnhance`,
  `handleApplyFilters`, `handleUndo`, `handleRedo`.
* `ResultViewer.tsx` (src/components): `handleRotate` and the canvas
  dimension selection of `handleApplyFilters` / `handleDownload`.

Conventions: JavaScript numbers holding pixel dimensions are modelled as
`Nat`, the history cursor as `Int` (it takes the value `-1`), the numeric
literals of `getClosestAspectRatio` as exact rationals, and images as opaque
strings (data URIs).  Asynchronous collaborators (the Gemini gateway and the
canvas resize) are passed to the handlers as explicit function arguments, and
each async handler is flattened to a single state transition from the state
captured at its invocation to the state after its completion.
-/

namespace LuminaForge

/-- AppState enum from `types.ts`. -/
inductive AppState where
  | IDLE
  | UPLOADING
  | READY_TO_EDIT
  | PROCESSING
  | COMPLETE
  | ERROR
deriving DecidableEq, Repr

/-- ProcessedImage interface from `types.ts`: a base64 data URI plus mime type. -/
structure ProcessedImage where
  originalData : String
  mimeType : String
deriving DecidableEq, Repr

/-- HistoryItem interface from `types.ts`: one checkpoint of the edit history. -/
structure HistoryItem where
  image : String
  prompt : String
  width : Nat
  height : Nat
deriving DecidableEq, Repr

/-- One entry of the `ratios` array of `getClosestAspectRatio` (App.tsx lines 13-19). -/
structure RatioOption where
  id : String
  value : ℚ
deriving DecidableEq, Repr

/-- The `ratios` array of `getClosestAspectRatio` (App.tsx lines 13-19), with the
floating point literals 0.75, 1.333, 0.5625, 1.777 read as exact decimals. -/
def aspectRatios : List RatioOption :=
  [ { id := "1:1", value := 1 }
  , { id := "3:4", value := 3/4 }
  , { id := "4:3", value := 1333/1000 }
  , { id := "9:16", value := 9/16 }
  , { id := "16:9", value := 1777/1000 } ]

/-- Math.abs on rationals, written as the conditional it computes. -/
def mathAbs (q : ℚ) : ℚ := if q < 0 then -q else q

/-- The `closest` value computed inside `getClosestAspectRatio` (App.tsx lines
21-23): `ratios.reduce` seeded with the first array element, keeping `prev`
unless `curr` is strictly closer to `targetRatio`.  (JavaScript `reduce`
without an initial value starts from the head; the array is non-empty, so the
empty case below is unreachable.) -/
def closestRatioOption (width height : ℚ) : RatioOption :=
  let targetRatio := width / height
  match aspectRatios with
  | [] => { id := "", value := 0 }
  | a :: rest =>
      rest.foldl
        (fun prev curr =>
          if mathAbs (curr.value - targetRatio) < mathAbs (prev.value - targetRatio)
          then curr else prev)
        a

/-- Function `getClosestAspectRatio` of App.tsx (lines 11-26). -/
def getClosestAspectRatio (width height : ℚ) : String :=
  (closestRatioOption width height).id

/-- Clockwise branch of `handleRotate` in ResultViewer.tsx (line 124):
`(prev + 90) % 360`. -/
def rotateCW (r : Int) : Int := (r + 90) % 360

/-- Counter-clockwise branch of `handleRotate` in ResultViewer.tsx (line 125):
`(prev - 90 + 360) % 360`.  For the reachable rotation states (`0 ≤ r < 360`)
the JavaScript remainder agrees with `Int.emod` because the dividend is
non-negative. -/
def rotateCCW (r : Int) : Int := (r - 90 + 360) % 360

/-- Direction argument of `handleRotate` in ResultViewer.tsx. -/
inductive RotateDir where
  | cw
  | ccw
deriving DecidableEq, Repr

/-- One `handleRotate` click (ResultViewer.tsx lines 122-127). -/
def rotateStep (r : Int) : RotateDir → Int
  | .cw => rotateCW r
  | .ccw => rotateCCW r

/-- Rotation state after a sequence of `handleRotate` clicks starting from the
neutral state 0 (the panel resets rotation to 0 whenever the viewed checkpoint
changes, ResultViewer.tsx lines 62-68). -/
def runRotations (ds : List RotateDir) : Int :=
  ds.foldl rotateStep 0

/-- Canvas dimension selection of `handleApplyFilters` / `handleDownload` in
ResultViewer.tsx (lines 174-181 and 199-206): swap width and height when the
rotation is not a multiple of 180 degrees. -/
def canvasDims (rotation : Int) (imgWidth imgHeight : Nat) : Nat × Nat :=
  if rotation % 180 ≠ 0 then (imgHeight, imgWidth) else (imgWidth, imgHeight)

/-- The session controller state: the `useState` cells of the `App` component
(App.tsx lines 51-69). -/
structure Session where
  appState : AppState
  originalImage : Option ProcessedImage
  history : List HistoryItem
  historyIndex : Int
  prompt : String
  width : Nat
  height : Nat
  showCropper : Bool
  showResetConfirmation : Bool
  error : Option String
deriving DecidableEq, Repr

/-- Initial values of the `useState` cells (App.tsx lines 51-69). -/
def initSession : Session :=
  { appState := .IDLE
  , originalImage := none
  , history := []
  , historyIndex := -1
  , prompt := ""
  , width := 1024
  , height := 1024
  , showCropper := false
  , showResetConfirmation := false
  , error := none }

/-- Derived flag `canUndo = historyIndex >= 0` (App.tsx line 73). -/
def canUndo (s : Session) : Bool := decide (0 ≤ s.historyIndex)

/-- Derived flag `canRedo = historyIndex < history.length - 1` (App.tsx line 74). -/
def canRedo (s : Session) : Bool :=
  decide (s.historyIndex < (s.history.length : Int) - 1)

/-- Derived value `generatedImage = historyIndex >= 0 ? history[historyIndex].image
: null` (App.tsx line 72).  The out-of-range lookup returning `none` would be a
JavaScript fault; it cannot occur when the cursor invariant holds. -/
def generatedImage (s : Session) : Option String :=
  if 0 ≤ s.historyIndex then (s.history[s.historyIndex.toNat]?).map (·.image) else none

/-- JavaScript truthiness filter on an optional string: `null`, `undefined` and
`""` are falsy. -/
def truthyStr : Option String → Option String
  | some v => if v = "" then none else some v
  | none => none

/-- The `sourceImage` local of `handleDenoise` / `handleAutoEnhance` (App.tsx
lines 171 and 223): `generatedImage || originalImage?.originalData`, with the
subsequent `if (!sourceImage) return;` folded in — `none` means the handler
returns without touching the state. -/
def denoiseSourceImage (s : Session) : Option String :=
  match truthyStr (generatedImage s) with
  | some img => some img
  | none => truthyStr (s.originalImage.map (·.originalData))

/-- Test whether a character list starts with a pattern. -/
def charsStartWith : List Char → List Char → Bool
  | _, [] => true
  | [], _ :: _ => false
  | a :: as, b :: bs => a = b && charsStartWith as bs

/-- Split a character list at the first occurrence of a (non-empty) pattern,
returning the text before it and the text after it. -/
def splitFirst (pat : List Char) : List Char → Option (List Char × List Char)
  | [] => none
  | c :: cs =>
    if charsStartWith (c :: cs) pat then some ([], (c :: cs).drop pat.length)
    else
      match splitFirst pat cs with
      | some (pre, post) => some (c :: pre, post)
      | none => none

/-- Match of `sourceImage` against `/^data:(.*?);base64,(.*)$/` (App.tsx lines
179-183 and 231-235): the lazy first group makes the mime type the text
between `data:` and the first `;base64,`, and the second group is everything
after that separator. -/
def parseDataURI (src : String) : Option (String × String) :=
  let cs := src.data
  if charsStartWith cs ("data:".data) then
    match splitFirst (";base64,".data) (cs.drop 5) with
    | some (mime, payload) => some (String.mk mime, String.mk payload)
    | none => none
  else none

/-- The Remote Edit Gateway (`editImageWithGemini` of geminiService.ts),
abstracted as a function of (base64Data, mimeType, prompt, aspectRatio).  The
first argument is optional because `split(',')[1]` can be `undefined`.  An
`Except.error` models a rejected promise carrying the error message. -/
def Gateway : Type :=
  Option String → String → String → String → Except String String

/-- The canvas resampler `resizeImage` (App.tsx lines 28-48), abstracted as a
function of (dataURI, targetWidth, targetHeight); it never fails. -/
def Resize : Type := String → Nat → Nat → String

/-- Handler `handleImageSelected` (App.tsx lines 76-91).  Only the synchronous
part is modelled here; the asynchronous `img.onload` that overwrites the target
dimensions is the separate `Op.imageDecoded` transition. -/
def handleImageSelected (s : Session) (image : ProcessedImage) : Session :=
  { s with originalImage := some image
         , history := []
         , historyIndex := -1
         , prompt := ""
         , error := none
         , appState := .READY_TO_EDIT }

/-- Handler `handleCroppedImageSelected` (App.tsx lines 93-109).  The prompt is
deliberately kept (source comment `// Keep the current prompt`); the
asynchronous dimension detection is again `Op.imageDecoded`. -/
def handleCroppedImageSelected (s : Session) (croppedBase64 : String) : Session :=
  { s with originalImage := some { originalData := croppedBase64, mimeType := "image/png" }
         , history := []
         , historyIndex := -1
         , error := none
         , appState := .READY_TO_EDIT
         , showCropper := false }

/-- Handler `handleResetRequest` (App.tsx lines 111-113). -/
def handleResetRequest (s : Session) : Session :=
  { s with showResetConfirmation := true }

/-- Handler `handleConfirmReset` (App.tsx lines 115-125). -/
def handleConfirmReset (s : Session) : Session :=
  { s with originalImage := none
         , history := []
         , historyIndex := -1
         , prompt := ""
         , width := 1024
         , height := 1024
         , error := none
         , appState := .IDLE
         , showResetConfirmation := false }

/-- Handler `handleGenerate` (App.tsx lines 127-167), flattened to the state
transition from invocation to completion.  The transient
`PROCESSING`/`setError(null)` phase is not observable in the final state; on
failure `err.message || "Something went wrong during generation."` is stored.
`history.slice(0, historyIndex + 1)` is `List.take (historyIndex + 1).toNat`,
which agrees with JavaScript `slice` for every cursor `≥ -1`. -/
def handleGenerate (s : Session) (currentPrompt : String)
    (gateway : Gateway) (resize : Resize) : Session :=
  match s.originalImage with
  | none => s
  | some originalImage =>
    let base64Data := (originalImage.originalData.splitOn ",")[1]?
    let aspectRatio := getClosestAspectRatio (s.width : ℚ) (s.height : ℚ)
    match gateway base64Data originalImage.mimeType currentPrompt aspectRatio with
    | .error msg =>
        { s with appState := .ERROR
               , error := some (if msg = "" then "Something went wrong during generation." else msg) }
    | .ok resultBase64 =>
        let rawImage := "data:image/png;base64," ++ resultBase64
        let resizedImage := resize rawImage s.width s.height
        let newHistoryItem : HistoryItem :=
          { image := resizedImage, prompt := currentPrompt, width := s.width, height := s.height }
        let newHistory := (s.history.take (s.historyIndex + 1).toNat).concat newHistoryItem
        { s with history := newHistory
               , historyIndex := (newHistory.length : Int) - 1
               , appState := .COMPLETE
               , error := none }

/-- Fixed instruction string sent by `handleDenoise` (App.tsx line 188). -/
def denoiseInstruction : String :=
  "Remove all noise and grain from this image. Make it look clean, sharp and professional. Preserve all details and textures."

/-- Fixed instruction string sent by `handleAutoEnhance` (App.tsx line 240). -/
def enhanceInstruction : String :=
  "Automatically enhance this image. Improve color balance, contrast, sharpness, and lighting to make it look professional, vibrant, and high-quality. Preserve the main subject details."

/-- Handler `handleDenoise` (App.tsx lines 169-219), flattened as for
`handleGenerate`.  A failed data-URI match throws
`"Invalid image source data."`, which the catch block stores verbatim. -/
def handleDenoise (s : Session) (gateway : Gateway) (resize : Resize) : Session :=
  match denoiseSourceImage s with
  | none => s
  | some sourceImage =>
    match parseDataURI sourceImage with
    | none => { s with appState := .ERROR, error := some "Invalid image source data." }
    | some (mimeType, base64Data) =>
      let aspectRatio := getClosestAspectRatio (s.width : ℚ) (s.height : ℚ)
      match gateway (some base64Data) mimeType denoiseInstruction aspectRatio with
      | .error msg =>
          { s with appState := .ERROR
                 , error := some (if msg = "" then "Denoising failed." else msg) }
      | .ok resultBase64 =>
          let resizedImage := resize ("data:image/png;base64," ++ resultBase64) s.width s.height
          let newHistoryItem : HistoryItem :=
            { image := resizedImage, prompt := "Remove Noise (AI)", width := s.width, height := s.height }
          let newHistory := (s.history.take (s.historyIndex + 1).toNat).concat newHistoryItem
          { s with history := newHistory
                 , historyIndex := (newHistory.length : Int) - 1
                 , prompt := "Remove Noise (AI)"
                 , appState := .COMPLETE
                 , error := none }

/-- Handler `handleAutoEnhance` (App.tsx lines 221-271): identical shape to
`handleDenoise` with the enhance instruction and the label `"Auto Enhance (AI)"`. -/
def handleAutoEnhance (s : Session) (gateway : Gateway) (resize : Resize) : Session :=
  match denoiseSourceImage s with
  | none => s
  | some sourceImage =>
    match parseDataURI sourceImage with
    | none => { s with appState := .ERROR, error := some "Invalid image source data." }
    | some (mimeType, base64Data) =>
      let aspectRatio := getClosestAspectRatio (s.width : ℚ) (s.height : ℚ)
      match gateway (some base64Data) mimeType enhanceInstruction aspectRatio with
      | .error msg =>
          { s with appState := .ERROR
                 , error := some (if msg = "" then "Auto enhancement failed." else msg) }
      | .ok resultBase64 =>
          let resizedImage := resize ("data:image/png;base64," ++ resultBase64) s.width s.height
          let newHistoryItem : HistoryItem :=
            { image := resizedImage, prompt := "Auto Enhance (AI)", width := s.width, height := s.height }
          let newHistory := (s.history.take (s.historyIndex + 1).toNat).concat newHistoryItem
          { s with history := newHistory
                 , historyIndex := (newHistory.length : Int) - 1
                 , prompt := "Auto Enhance (AI)"
                 , appState := .COMPLETE
                 , error := none }

/-- Handler `handleApplyFilters` of App.tsx (lines 273-289): bake a locally
adjusted image into a new checkpoint.  The `none` lookup case would be a
JavaScript fault (`history[historyIndex]` undefined); it cannot occur when the
cursor invariant holds. -/
def handleApplyFilters (s : Session) (newImage : String) : Session :=
  if s.historyIndex < 0 then s
  else
    match s.history[s.historyIndex.toNat]? with
    | none => s
    | some currentItem =>
        let newHistoryItem : HistoryItem :=
          { image := newImage, prompt := currentItem.prompt
          , width := currentItem.width, height := currentItem.height }
        let newHistory := (s.history.take (s.historyIndex + 1).toNat).concat newHistoryItem
        { s with history := newHistory
               , historyIndex := (newHistory.length : Int) - 1 }

/-- Handler `handleUndo` (App.tsx lines 291-306).  The `none` lookup case would
be a JavaScript fault; it cannot occur when the cursor invariant holds. -/
def handleUndo (s : Session) : Session :=
  if !(canUndo s) then s
  else
    let newIndex := s.historyIndex - 1
    if 0 ≤ newIndex then
      match s.history[newIndex.toNat]? with
      | none => { s with historyIndex := newIndex }
      | some item =>
          { s with historyIndex := newIndex
                 , prompt := item.prompt
                 , width := item.width
                 , height := item.height
                 , appState := .COMPLETE }
    else
      { s with historyIndex := newIndex, appState := .READY_TO_EDIT }

/-- Handler `handleRedo` (App.tsx lines 308-317).  The `none` lookup case would
be a JavaScript fault; it cannot occur when the cursor invariant holds. -/
def handleRedo (s : Session) : Session :=
  if !(canRedo s) then s
  else
    let newIndex := s.historyIndex + 1
    match s.history[newIndex.toNat]? with
    | none => { s with historyIndex := newIndex }
    | some item =>
        { s with historyIndex := newIndex
               , prompt := item.prompt
               , width := item.width
               , height := item.height
               , appState := .COMPLETE }

/-- User-triggered events of the session controller.  The gateway and resize
collaborators travel with the event that awaits them, so one list element is
one completed handler run. -/
inductive Op where
  | imageSelected (image : ProcessedImage)
  | imageDecoded (w h : Nat)
  | croppedImageSelected (croppedBase64 : String)
  | resetRequest
  | confirmReset
  | userSetPrompt (p : String)
  | userSetWidth (w : Nat)
  | userSetHeight (h : Nat)
  | generate (currentPrompt : String) (gateway : Gateway) (resize : Resize)
  | denoise (gateway : Gateway) (resize : Resize)
  | autoEnhance (gateway : Gateway) (resize : Resize)
  | applyFilters (newImage : String)
  | undo
  | redo

/-- Dispatch one event to its handler.  `imageDecoded`, `userSetPrompt`,
`userSetWidth` and `userSetHeight` are the bare `setState` calls made by the
image decoder callback (App.tsx lines 85-90) and the `PromptEditor` bindings. -/
def stepOp (s : Session) : Op → Session
  | .imageSelected image => handleImageSelected s image
  | .imageDecoded w h => { s with width := w, height := h }
  | .croppedImageSelected data => handleCroppedImageSelected s data
  | .resetRequest => handleResetRequest s
  | .confirmReset => handleConfirmReset s
  | .userSetPrompt p => { s with prompt := p }
  | .userSetWidth w => { s with width := w }
  | .userSetHeight h => { s with height := h }
  | .generate p gw rz => handleGenerate s p gw rz
  | .denoise gw rz => handleDenoise s gw rz
  | .autoEnhance gw rz => handleAutoEnhance s gw rz
  | .applyFilters img => handleApplyFilters s img
  | .undo => handleUndo s
  | .redo => handleRedo s

/-- Session reached after a list of events starting from the initial state. -/
def runOps (ops : List Op) : Session := ops.foldl stepOp initSession

/-- Ghost observer: the prompt text most recently typed or clicked in by the
user (the payload of the last `userSetPrompt` event), `""` if there is none. -/
def lastUserPrompt (ops : List Op) : String :=
  ops.foldl (fun acc op => match op with | .userSetPrompt p => p | _ => acc) ""

/-- Cursor invariant of the History Store: `historyIndex ∈ [-1, length-1]`. -/
def Inv (s : Session) : Prop :=
  -1 ≤ s.historyIndex ∧ s.historyIndex < (s.history.length : Int)

/-- Gateway stub that always succeeds with a fixed payload. -/
def okGateway (resultBase64 : String) : Gateway := fun _ _ _ _ => .ok resultBase64

/-- Gateway stub that always rejects with a fixed message. -/
def errGateway (msg : String) : Gateway := fun _ _ _ _ => .error msg

/-- Resize stub that returns its input unchanged. -/
def idResize : Resize := fun img _ _ => img

/-- Sample upload used by concrete scenarios. -/
def img0 : ProcessedImage := { originalData := "data:image/png;base64,src", mimeType := "image/png" }

/-- Session right after uploading `img0`: source set, empty history. -/
def sampleSession : Session := handleImageSelected initSession img0

/-- Sample checkpoint. -/
def sampleItem : HistoryItem :=
  { image := "data:image/png;base64,iA", prompt := "A", width := 640, height := 480 }

/-- Second sample checkpoint. -/
def sampleItem2 : HistoryItem :=
  { image := "data:image/png;base64,iB", prompt := "B", width := 800, height := 600 }

/-- Session with one checkpoint selected (cursor 0). -/
def sampleSession1 : Session :=
  { sampleSession with history := [sampleItem], historyIndex := 0, appState := .COMPLETE }

/-- Session with two checkpoints, cursor on the second (cursor 1). -/
def sampleSession2 : Session :=
  { sampleSession with history := [sampleItem, sampleItem2], historyIndex := 1, appState := .COMPLETE }

/-- Event trace of the append-truncation scenario: upload, generate A, B, C,
undo twice, generate D. -/
def opsABCD : List Op :=
  [ .imageSelected img0
  , .userSetPrompt "A", .generate "A" (okGateway "iA") idResize
  , .userSetPrompt "B", .generate "B" (okGateway "iB") idResize
  , .userSetPrompt "C", .generate "C" (okGateway "iC") idResize
  , .undo, .undo
  , .generate "D" (okGateway "iD") idResize ]

/-- Event trace refuting the undo-past-(-1) prompt claim: the user types "red",
generates, types "blue", generates, then undoes twice. -/
def opsC3 : List Op :=
  [ .imageSelected img0
  , .userSetPrompt "red", .generate "red" (okGateway "i1") idResize
  , .userSetPrompt "blue", .generate "blue" (okGateway "i2") idResize
  , .undo, .undo ]

/-- Event trace refuting the crop-clears-prompt claim: the user uploads, types a
prompt, then accepts a crop. -/
def opsC4 : List Op :=
  [ .imageSelected img0
  , .userSetPrompt "make it red"
  , .croppedImageSelected "data:image/png;base64,crop" ]

/-- The data URI whose payload `handleGenerate` sends to the Gateway (App.tsx
line 134): the original source image's data, never a checkpoint's. -/
def generateUpstreamImage (s : Session) : Option String :=
  s.originalImage.map (·.originalData)

/-- Lemma: `mathAbs` agrees with the absolute value of Mathlib. -/
theorem mathAbs_eq_abs (q : ℚ) : mathAbs q = |q| := by
  unfold mathAbs
  split
  · exact (abs_of_neg (by assumption)).symm
  · exact (abs_of_nonneg (le_of_not_lt (by assumption))).symm

/-- Truncate-then-push re-establishes the cursor invariant on its own: a
concat-ed list is non-empty, so `length - 1 ∈ [0, length-1]`. -/
theorem inv_after_push (hist : List HistoryItem) (idx : Int) (item : HistoryItem) :
    -1 ≤ ((((hist.take (idx + 1).toNat).concat item).length : Int) - 1)
    ∧ ((((hist.take (idx + 1).toNat).concat item).length : Int) - 1)
      < (((hist.take (idx + 1).toNat).concat item).length : Int) := by
  constructor
  · have : 1 ≤ ((hist.take (idx + 1).toNat).concat item).length := by
      simp [List.concat_eq_append]
    omega
  · omega

/-- Invariant preservation for `handleGenerate`. -/
theorem inv_handleGenerate (s : Session) (p : String) (gw : Gateway) (rz : Resize)
    (h : Inv s) : Inv (handleGenerate s p gw rz) := by
  unfold handleGenerate
  split
  · exact h
  · dsimp only
    split
    · exact h
    · exact inv_after_push s.history s.historyIndex _

/-- Invariant preservation for `handleDenoise`. -/
theorem inv_handleDenoise (s : Session) (gw : Gateway) (rz : Resize)
    (h : Inv s) : Inv (handleDenoise s gw rz) := by
  unfold handleDenoise
  split
  · exact h
  · split
    · exact h
    · dsimp only
      split
      · exact h
      · exact inv_after_push s.history s.historyIndex _

/-- Invariant preservation for `handleAutoEnhance`. -/
theorem inv_handleAutoEnhance (s : Session) (gw : Gateway) (rz : Resize)
    (h : Inv s) : Inv (handleAutoEnhance s gw rz) := by
  unfold handleAutoEnhance
  split
  · exact h
  · split
    · exact h
    · dsimp only
      split
      · exact h
      · exact inv_after_push s.history s.historyIndex _

/-- Invariant preservation for `handleApplyFilters`. -/
theorem inv_handleApplyFilters (s : Session) (newImage : String)
    (h : Inv s) : Inv (handleApplyFilters s newImage) := by
  unfold handleApplyFilters
  split
  · exact h
  · split
    · exact h
    · exact inv_after_push s.history s.historyIndex _

/-- Invariant preservation for `handleUndo`. -/
theorem inv_handleUndo (s : Session) (h : Inv s) : Inv (handleUndo s) := by
  obtain ⟨h1, h2⟩ := h
  unfold handleUndo
  split
  · exact ⟨h1, h2⟩
  · rename_i hguard
    have hge : 0 ≤ s.historyIndex := by
      simpa [canUndo] using hguard
    dsimp only
    split
    · split
      all_goals unfold Inv
      all_goals dsimp only
      all_goals omega
    · unfold Inv
      dsimp only
      omega

/-- Invariant preservation for `handleRedo`. -/
theorem inv_handleRedo (s : Session) (h : Inv s) : Inv (handleRedo s) := by
  obtain ⟨h1, h2⟩ := h
  unfold handleRedo
  split
  · exact ⟨h1, h2⟩
  · rename_i hguard
    have hlt : s.historyIndex < (s.history.length : Int) - 1 := by
      simp [canRedo] at hguard
      omega
    dsimp only
    split
    all_goals unfold Inv
    all_goals dsimp only
    all_goals omega

/-- Invariant preservation for every event. -/
theorem inv_stepOp (s : Session) (op : Op) (h : Inv s) : Inv (stepOp s op) := by
  cases op with
  | imageSelected image =>
      exact ⟨by norm_num [stepOp, handleImageSelected], by norm_num [stepOp, handleImageSelected]⟩
  | imageDecoded w h2 => exact h
  | croppedImageSelected data =>
      exact ⟨by norm_num [stepOp, handleCroppedImageSelected],
             by norm_num [stepOp, handleCroppedImageSelected]⟩
  | resetRequest => exact h
  | confirmReset =>
      exact ⟨by norm_num [stepOp, handleConfirmReset], by norm_num [stepOp, handleConfirmReset]⟩
  | userSetPrompt p => exact h
  | userSetWidth w => exact h
  | userSetHeight h2 => exact h
  | generate p gw rz => exact inv_handleGenerate s p gw rz h
  | denoise gw rz => exact inv_handleDenoise s gw rz h
  | autoEnhance gw rz => exact inv_handleAutoEnhance s gw rz h
  | applyFilters img => exact inv_handleApplyFilters s img h
  | undo => exact inv_handleUndo s h
  | redo => exact inv_handleRedo s h

/-- C1: for every sequence of events starting from the initial (empty-history)
session, the history cursor stays within `[-1, length-1]`, and the derived
flags satisfy `canUndo ⟺ cursor ≥ 0` and `canRedo ⟺ cursor < length-1`. -/
theorem C1_cursor_invariant_and_flags :
    (∀ ops : List Op, Inv (runOps ops))
    ∧ (∀ s : Session,
        (canUndo s = true ↔ 0 ≤ s.historyIndex)
        ∧ (canRedo s = true ↔ s.historyIndex < (s.history.length : Int) - 1)) := by
  constructor
  · intro ops
    have hrun : ∀ (l : List Op) (s : Session), Inv s → Inv (l.foldl stepOp s) := by
      intro l
      induction l with
      | nil => intro s hs; exact hs
      | cons op t ih => intro s hs; exact ih (stepOp s op) (inv_stepOp s op hs)
    exact hrun ops initSession ⟨by norm_num [initSession], by norm_num [initSession]⟩
  · intro s
    constructor
    · simp [canUndo]
    · simp [canRedo]

/-- Characterization of a successful `handleGenerate`: entries strictly after
the cursor are dropped, the new checkpoint is pushed, the cursor moves to the
new last index, and the state becomes `COMPLETE`. -/
theorem generate_ok_spec (s : Session) (p : String) (gw : Gateway) (rz : Resize)
    (oi : ProcessedImage) (rb : String)
    (horig : s.originalImage = some oi)
    (hgw : gw ((oi.originalData.splitOn ",")[1]?) oi.mimeType p
        (getClosestAspectRatio (s.width : ℚ) (s.height : ℚ)) = Except.ok rb) :
    handleGenerate s p gw rz =
      { s with
          history := (s.history.take (s.historyIndex + 1).toNat).concat
            { image := rz ("data:image/png;base64," ++ rb) s.width s.height
            , prompt := p, width := s.width, height := s.height }
        , historyIndex :=
            (((s.history.take (s.historyIndex + 1).toNat).concat
              { image := rz ("data:image/png;base64," ++ rb) s.width s.height
              , prompt := p, width := s.width, height := s.height }).length : Int) - 1
        , appState := .COMPLETE
        , error := none } := by
  unfold handleGenerate
  rw [horig]
  dsimp only
  rw [hgw]

/-- Characterization of a failed `handleGenerate` with a non-empty message:
only `appState` and `error` change. -/
theorem generate_err_spec (s : Session) (p : String) (gw : Gateway) (rz : Resize)
    (oi : ProcessedImage) (msg : String)
    (horig : s.originalImage = some oi)
    (hmsg : msg ≠ "")
    (hgw : gw ((oi.originalData.splitOn ",")[1]?) oi.mimeType p
        (getClosestAspectRatio (s.width : ℚ) (s.height : ℚ)) = Except.error msg) :
    handleGenerate s p gw rz = { s with appState := .ERROR, error := some msg } := by
  unfold handleGenerate
  rw [horig]
  dsimp only
  rw [hgw]
  dsimp only
  rw [if_neg hmsg]

/-- Characterization of a successful `handleDenoise`. -/
theorem denoise_ok_spec (s : Session) (gw : Gateway) (rz : Resize)
    (src mt b64 rb : String)
    (hsrc : denoiseSourceImage s = some src)
    (hparse : parseDataURI src = some (mt, b64))
    (hgw : gw (some b64) mt denoiseInstruction
        (getClosestAspectRatio (s.width : ℚ) (s.height : ℚ)) = Except.ok rb) :
    handleDenoise s gw rz =
      { s with
          history := (s.history.take (s.historyIndex + 1).toNat).concat
            { image := rz ("data:image/png;base64," ++ rb) s.width s.height
            , prompt := "Remove Noise (AI)", width := s.width, height := s.height }
        , historyIndex :=
            (((s.history.take (s.historyIndex + 1).toNat).concat
              { image := rz ("data:image/png;base64," ++ rb) s.width s.height
              , prompt := "Remove Noise (AI)", width := s.width, height := s.height }).length : Int) - 1
        , prompt := "Remove Noise (AI)"
        , appState := .COMPLETE
        , error := none } := by
  unfold handleDenoise
  rw [hsrc]
  dsimp only
  rw [hparse]
  dsimp only
  rw [hgw]

/-- Characterization of a failed `handleDenoise` with a non-empty message. -/
theorem denoise_err_spec (s : Session) (gw : Gateway) (rz : Resize)
    (src mt b64 msg : String)
    (hsrc : denoiseSourceImage s = some src)
    (hparse : parseDataURI src = some (mt, b64))
    (hmsg : msg ≠ "")
    (hgw : gw (some b64) mt denoiseInstruction
        (getClosestAspectRatio (s.width : ℚ) (s.height : ℚ)) = Except.error msg) :
    handleDenoise s gw rz = { s with appState := .ERROR, error := some msg } := by
  unfold handleDenoise
  rw [hsrc]
  dsimp only
  rw [hparse]
  dsimp only
  rw [hgw]
  dsimp only
  rw [if_neg hmsg]

/-- Characterization of a successful `handleAutoEnhance`. -/
theorem enhance_ok_spec (s : Session) (gw : Gateway) (rz : Resize)
    (src mt b64 rb : String)
    (hsrc : denoiseSourceImage s = some src)
    (hparse : parseDataURI src = some (mt, b64))
    (hgw : gw (some b64) mt enhanceInstruction
        (getClosestAspectRatio (s.width : ℚ) (s.height : ℚ)) = Except.ok rb) :
    handleAutoEnhance s gw rz =
      { s with
          history := (s.history.take (s.historyIndex + 1).toNat).concat
            { image := rz ("data:image/png;base64," ++ rb) s.width s.height
            , prompt := "Auto Enhance (AI)", width := s.width, height := s.height }
        , historyIndex :=
            (((s.history.take (s.historyIndex + 1).toNat).concat
              { image := rz ("data:image/png;base64," ++ rb) s.width s.height
              , prompt := "Auto Enhance (AI)", width := s.width, height := s.height }).length : Int) - 1
        , prompt := "Auto Enhance (AI)"
        , appState := .COMPLETE
        , error := none } := by
  unfold handleAutoEnhance
  rw [hsrc]
  dsimp only
  rw [hparse]
  dsimp only
  rw [hgw]

/-- Characterization of a failed `handleAutoEnhance` with a non-empty message. -/
theorem enhance_err_spec (s : Session) (gw : Gateway) (rz : Resize)
    (src mt b64 msg : String)
    (hsrc : denoiseSourceImage s = some src)
    (hparse : parseDataURI src = some (mt, b64))
    (hmsg : msg ≠ "")
    (hgw : gw (some b64) mt enhanceInstruction
        (getClosestAspectRatio (s.width : ℚ) (s.height : ℚ)) = Except.error msg) :
    handleAutoEnhance s gw rz = { s with appState := .ERROR, error := some msg } := by
  unfold handleAutoEnhance
  rw [hsrc]
  dsimp only
  rw [hparse]
  dsimp only
  rw [hgw]
  dsimp only
  rw [if_neg hmsg]

/-- Characterization of `handleApplyFilters` with a selected checkpoint. -/
theorem bake_spec (s : Session) (newImage : String) (item : HistoryItem)
    (hge : 0 ≤ s.historyIndex)
    (hitem : s.history[s.historyIndex.toNat]? = some item) :
    handleApplyFilters s newImage =
      { s with
          history := (s.history.take (s.historyIndex + 1).toNat).concat
            { image := newImage, prompt := item.prompt
            , width := item.width, height := item.height }
        , historyIndex :=
            (((s.history.take (s.historyIndex + 1).toNat).concat
              { image := newImage, prompt := item.prompt
              , width := item.width, height := item.height }).length : Int) - 1 } := by
  unfold handleApplyFilters
  rw [if_neg (not_lt.mpr hge)]
  rw [hitem]

/-- Characterization of `handleUndo` when the new cursor is still a valid index. -/
theorem undo_restore_spec (s : Session) (item : HistoryItem)
    (hge : 1 ≤ s.historyIndex)
    (hitem : s.history[(s.historyIndex - 1).toNat]? = some item) :
    handleUndo s =
      { s with historyIndex := s.historyIndex - 1, prompt := item.prompt
             , width := item.width, height := item.height, appState := .COMPLETE } := by
  have hcu : canUndo s = true := by
    simp [canUndo]
    omega
  unfold handleUndo
  rw [hcu]
  simp only [Bool.not_true]
  rw [if_neg (by simp)]
  rw [if_pos (by omega : (0 : Int) ≤ s.historyIndex - 1)]
  rw [hitem]

/-- Characterization of `handleUndo` stepping from the first checkpoint back to
the unedited source: cursor to `-1`, state to `READY_TO_EDIT`, everything else
— prompt included — untouched. -/
theorem undo_to_source_spec (s : Session) (h0 : s.historyIndex = 0) :
    handleUndo s = { s with historyIndex := -1, appState := .READY_TO_EDIT } := by
  have hcu : canUndo s = true := by
    simp [canUndo]
    omega
  unfold handleUndo
  rw [hcu]
  simp only [Bool.not_true]
  rw [if_neg (by simp)]
  rw [if_neg (by omega : ¬ (0 : Int) ≤ s.historyIndex - 1)]
  rw [h0]
  norm_num

/-- C2: every append of a new checkpoint — from generate, denoise, enhance, or
bake — first drops the checkpoints strictly after the cursor, then pushes the
new checkpoint, then sets the cursor to the new last index, with no failure
path; in particular, appending A, B, C, undoing twice and appending D leaves
the sequence [A, D] with cursor 1 and makes redo a no-op. -/
theorem C2_append_truncates_then_pushes :
    (∀ (s : Session) (p : String) (gw : Gateway) (rz : Resize) (oi : ProcessedImage) (rb : String),
      s.originalImage = some oi →
      gw ((oi.originalData.splitOn ",")[1]?) oi.mimeType p
          (getClosestAspectRatio (s.width : ℚ) (s.height : ℚ)) = Except.ok rb →
      (handleGenerate s p gw rz).history =
          (s.history.take (s.historyIndex + 1).toNat).concat
            { image := rz ("data:image/png;base64," ++ rb) s.width s.height
            , prompt := p, width := s.width, height := s.height }
        ∧ (handleGenerate s p gw rz).historyIndex =
            ((handleGenerate s p gw rz).history.length : Int) - 1)
    ∧ (∀ (s : Session) (gw : Gateway) (rz : Resize) (src mt b64 rb : String),
      denoiseSourceImage s = some src →
      parseDataURI src = some (mt, b64) →
      gw (some b64) mt denoiseInstruction
          (getClosestAspectRatio (s.width : ℚ) (s.height : ℚ)) = Except.ok rb →
      (handleDenoise s gw rz).history =
          (s.history.take (s.historyIndex + 1).toNat).concat
            { image := rz ("data:image/png;base64," ++ rb) s.width s.height
            , prompt := "Remove Noise (AI)", width := s.width, height := s.height }
        ∧ (handleDenoise s gw rz).historyIndex =
            ((handleDenoise s gw rz).history.length : Int) - 1)
    ∧ (∀ (s : Session) (gw : Gateway) (rz : Resize) (src mt b64 rb : String),
      denoiseSourceImage s = some src →
      parseDataURI src = some (mt, b64) →
      gw (some b64) mt enhanceInstruction
          (getClosestAspectRatio (s.width : ℚ) (s.height : ℚ)) = Except.ok rb →
      (handleAutoEnhance s gw rz).history =
          (s.history.take (s.historyIndex + 1).toNat).concat
            { image := rz ("data:image/png;base64," ++ rb) s.width s.height
            , prompt := "Auto Enhance (AI)", width := s.width, height := s.height }
        ∧ (handleAutoEnhance s gw rz).historyIndex =
            ((handleAutoEnhance s gw rz).history.length : Int) - 1)
    ∧ (∀ (s : Session) (newImage : String) (item : HistoryItem),
      0 ≤ s.historyIndex →
      s.history[s.historyIndex.toNat]? = some item →
      (handleApplyFilters s newImage).history =
          (s.history.take (s.historyIndex + 1).toNat).concat
            { image := newImage, prompt := item.prompt
            , width := item.width, height := item.height }
        ∧ (handleApplyFilters s newImage).historyIndex =
            ((handleApplyFilters s newImage).history.length : Int) - 1)
    ∧ ((runOps opsABCD).history.map (·.prompt) = ["A", "D"]
        ∧ (runOps opsABCD).historyIndex = 1
        ∧ handleRedo (runOps opsABCD) = runOps opsABCD) := by
  refine ⟨?_, ?_, ?_, ?_, by decide, by decide, by decide⟩
  · intro s p gw rz oi rb horig hgw
    rw [generate_ok_spec s p gw rz oi rb horig hgw]
    exact ⟨rfl, rfl⟩
  · intro s gw rz src mt b64 rb hsrc hparse hgw
    rw [denoise_ok_spec s gw rz src mt b64 rb hsrc hparse hgw]
    exact ⟨rfl, rfl⟩
  · intro s gw rz src mt b64 rb hsrc hparse hgw
    rw [enhance_ok_spec s gw rz src mt b64 rb hsrc hparse hgw]
    exact ⟨rfl, rfl⟩
  · intro s newImage item hge hitem
    rw [bake_spec s newImage item hge hitem]
    exact ⟨rfl, rfl⟩

/-- Witness for C2: the generate clause applied at the freshly uploaded sample
session with a gateway stub that succeeds. -/
theorem C2_witness :
    (handleGenerate sampleSession "p" (okGateway "r") idResize).history =
        (sampleSession.history.take (sampleSession.historyIndex + 1).toNat).concat
          { image := idResize ("data:image/png;base64," ++ "r") sampleSession.width sampleSession.height
          , prompt := "p", width := sampleSession.width, height := sampleSession.height }
      ∧ (handleGenerate sampleSession "p" (okGateway "r") idResize).historyIndex =
          ((handleGenerate sampleSession "p" (okGateway "r") idResize).history.length : Int) - 1 :=
  C2_append_truncates_then_pushes.1 sampleSession "p" (okGateway "r") idResize img0 "r" rfl rfl

/-- C5: when the Gateway rejects a generate, denoise, or enhance call with a
(non-empty) message, the session enters the `ERROR` state carrying that
message and nothing else changes — in particular the history sequence and the
cursor stay exactly as they were. -/
theorem C5_gateway_failure_keeps_history :
    (∀ (s : Session) (p : String) (gw : Gateway) (rz : Resize) (oi : ProcessedImage) (msg : String),
      s.originalImage = some oi →
      msg ≠ "" →
      gw ((oi.originalData.splitOn ",")[1]?) oi.mimeType p
          (getClosestAspectRatio (s.width : ℚ) (s.height : ℚ)) = Except.error msg →
      handleGenerate s p gw rz = { s with appState := .ERROR, error := some msg })
    ∧ (∀ (s : Session) (gw : Gateway) (rz : Resize) (src mt b64 msg : String),
      denoiseSourceImage s = some src →
      parseDataURI src = some (mt, b64) →
      msg ≠ "" →
      gw (some b64) mt denoiseInstruction
          (getClosestAspectRatio (s.width : ℚ) (s.height : ℚ)) = Except.error msg →
      handleDenoise s gw rz = { s with appState := .ERROR, error := some msg })
    ∧ (∀ (s : Session) (gw : Gateway) (rz : Resize) (src mt b64 msg : String),
      denoiseSourceImage s = some src →
      parseDataURI src = some (mt, b64) →
      msg ≠ "" →
      gw (some b64) mt enhanceInstruction
          (getClosestAspectRatio (s.width : ℚ) (s.height : ℚ)) = Except.error msg →
      handleAutoEnhance s gw rz = { s with appState := .ERROR, error := some msg }) := by
  refine ⟨?_, ?_, ?_⟩
  · intro s p gw rz oi msg horig hmsg hgw
    exact generate_err_spec s p gw rz oi msg horig hmsg hgw
  · intro s gw rz src mt b64 msg hsrc hparse hmsg hgw
    exact denoise_err_spec s gw rz src mt b64 msg hsrc hparse hmsg hgw
  · intro s gw rz src mt b64 msg hsrc hparse hmsg hgw
    exact enhance_err_spec s gw rz src mt b64 msg hsrc hparse hmsg hgw

/-- Witness for C5: all three clauses applied at concrete sessions with a
gateway stub that rejects with "boom". -/
theorem C5_witness :
    handleGenerate sampleSession1 "p" (errGateway "boom") idResize
        = { sampleSession1 with appState := .ERROR, error := some "boom" }
    ∧ handleDenoise sampleSession (errGateway "boom") idResize
        = { sampleSession with appState := .ERROR, error := some "boom" }
    ∧ handleAutoEnhance sampleSession (errGateway "boom") idResize
        = { sampleSession with appState := .ERROR, error := some "boom" } :=
  ⟨C5_gateway_failure_keeps_history.1 sampleSession1 "p" (errGateway "boom") idResize img0 "boom"
      rfl (by decide) rfl
  , C5_gateway_failure_keeps_history.2.1 sampleSession (errGateway "boom") idResize
      "data:image/png;base64,src" "image/png" "src" "boom" (by decide) (by decide) (by decide) rfl
  , C5_gateway_failure_keeps_history.2.2 sampleSession (errGateway "boom") idResize
      "data:image/png;base64,src" "image/png" "src" "boom" (by decide) (by decide) (by decide) rfl⟩

/-- C6: reset is two-phase — the request only raises the confirmation gate and
leaves every other field untouched, while the confirmation clears the source,
history (cursor -1), prompt and error, restores the 1024×1024 default
dimensions, and returns to `IDLE`. -/
theorem C6_reset_two_phase :
    (∀ s : Session, handleResetRequest s = { s with showResetConfirmation := true })
    ∧ (∀ s : Session, handleConfirmReset s =
        { appState := .IDLE
        , originalImage := none
        , history := []
        , historyIndex := -1
        , prompt := ""
        , width := 1024
        , height := 1024
        , showCropper := s.showCropper
        , showResetConfirmation := false
        , error := none }) :=
  ⟨fun _ => rfl, fun _ => rfl⟩

/-- C7: baking a local adjustment is a no-op when no checkpoint is selected
(cursor < 0); with a selected checkpoint it appends a checkpoint that keeps
the current checkpoint's prompt label and target dimensions and differs only
in the pixel payload. -/
theorem C7_bake_preserves_provenance :
    (∀ (s : Session) (newImage : String), s.historyIndex < 0 →
      handleApplyFilters s newImage = s)
    ∧ (∀ (s : Session) (newImage : String) (item : HistoryItem),
      0 ≤ s.historyIndex →
      s.history[s.historyIndex.toNat]? = some item →
      handleApplyFilters s newImage =
        { s with
            history := (s.history.take (s.historyIndex + 1).toNat).concat
              { image := newImage, prompt := item.prompt
              , width := item.width, height := item.height }
          , historyIndex :=
              (((s.history.take (s.historyIndex + 1).toNat).concat
                { image := newImage, prompt := item.prompt
                , width := item.width, height := item.height }).length : Int) - 1 }) := by
  constructor
  · intro s newImage hlt
    unfold handleApplyFilters
    rw [if_pos hlt]
  · intro s newImage item hge hitem
    exact bake_spec s newImage item hge hitem

/-- Witness for C7: the no-op clause at the freshly uploaded session (cursor
-1) and the append clause at the one-checkpoint session (cursor 0). -/
theorem C7_witness :
    handleApplyFilters sampleSession "px" = sampleSession
    ∧ handleApplyFilters sampleSession1 "px" =
        { sampleSession1 with
            history := (sampleSession1.history.take (sampleSession1.historyIndex + 1).toNat).concat
              { image := "px", prompt := sampleItem.prompt
              , width := sampleItem.width, height := sampleItem.height }
          , historyIndex :=
              (((sampleSession1.history.take (sampleSession1.historyIndex + 1).toNat).concat
                { image := "px", prompt := sampleItem.prompt
                , width := sampleItem.width, height := sampleItem.height }).length : Int) - 1 } :=
  ⟨C7_bake_preserves_provenance.1 sampleSession "px" (by decide)
  , C7_bake_preserves_provenance.2 sampleSession1 "px" sampleItem (by decide) (by decide)⟩

/-- C3 (amended): with a selected checkpoint, undo decrements the cursor; when
the new cursor is still ≥ 0 it restores the prompt text, target width and
target height stored on the checkpoint that becomes current and sets
`COMPLETE`; when the cursor reaches -1 the session enters `READY_TO_EDIT`
with the prompt text (and dimensions) left unchanged — it is not reverted to
the last user-entered prompt. -/
theorem C3_undo_restores_checkpoint (s : Session) (hinv : Inv s)
    (hsel : 0 ≤ s.historyIndex) :
    (handleUndo s).historyIndex = s.historyIndex - 1
    ∧ (1 ≤ s.historyIndex →
        ∃ item, s.history[(s.historyIndex - 1).toNat]? = some item
          ∧ handleUndo s =
              { s with historyIndex := s.historyIndex - 1, prompt := item.prompt
                     , width := item.width, height := item.height, appState := .COMPLETE })
    ∧ (s.historyIndex = 0 →
        handleUndo s = { s with historyIndex := -1, appState := .READY_TO_EDIT }) := by
  rcases (by omega : 1 ≤ s.historyIndex ∨ s.historyIndex = 0) with hge | h0
  · have hlen : (s.historyIndex - 1).toNat < s.history.length := by
      obtain ⟨h1, h2⟩ := hinv
      omega
    have hitem : s.history[(s.historyIndex - 1).toNat]? =
        some (s.history[(s.historyIndex - 1).toNat]) := List.getElem?_eq_getElem hlen
    refine ⟨?_, ?_, ?_⟩
    · rw [undo_restore_spec s _ hge hitem]
    · intro _
      exact ⟨_, hitem, undo_restore_spec s _ hge hitem⟩
    · intro h0
      omega
  · refine ⟨?_, ?_, ?_⟩
    · rw [undo_to_source_spec s h0]
      dsimp only
      omega
    · intro hge
      omega
    · intro _
      exact undo_to_source_spec s h0

/-- Witness for C3: the amended undo characterization applied at the
two-checkpoint sample session (cursor 1). -/
theorem C3_witness :
    (handleUndo sampleSession2).historyIndex = sampleSession2.historyIndex - 1
    ∧ (1 ≤ sampleSession2.historyIndex →
        ∃ item, sampleSession2.history[(sampleSession2.historyIndex - 1).toNat]? = some item
          ∧ handleUndo sampleSession2 =
              { sampleSession2 with
                  historyIndex := sampleSession2.historyIndex - 1, prompt := item.prompt
                , width := item.width, height := item.height, appState := .COMPLETE })
    ∧ (sampleSession2.historyIndex = 0 →
        handleUndo sampleSession2 =
          { sampleSession2 with historyIndex := -1, appState := .READY_TO_EDIT }) :=
  C3_undo_restores_checkpoint sampleSession2 ⟨by decide, by decide⟩ (by decide)

/-- Counterexample for C3: after typing "red", generating, typing "blue",
generating, and undoing twice, the final undo crosses from cursor 0 to -1 and
enters `READY_TO_EDIT`, but the prompt box still shows "red" — restored from
checkpoint 0 by the first undo — not the last user-entered prompt "blue". -/
theorem C3_counterexample :
    (runOps (opsC3.take 6)).historyIndex = 0
    ∧ runOps opsC3 = handleUndo (runOps (opsC3.take 6))
    ∧ (runOps opsC3).historyIndex = -1
    ∧ (runOps opsC3).appState = AppState.READY_TO_EDIT
    ∧ lastUserPrompt opsC3 = "blue"
    ∧ (runOps opsC3).prompt = "red"
    ∧ ¬ (runOps opsC3).prompt = lastUserPrompt opsC3 := by decide

/-- C4 (amended): replacing the source transitions to `READY_TO_EDIT`, clears
the history (cursor -1) and the error in both paths, but only the fresh-upload
path clears the prompt text — the crop-accept path keeps it. -/
theorem C4_source_replacement (s : Session) (image : ProcessedImage)
    (croppedBase64 : String) :
    handleImageSelected s image =
      { s with originalImage := some image, history := [], historyIndex := -1
             , prompt := "", error := none, appState := .READY_TO_EDIT }
    ∧ handleCroppedImageSelected s croppedBase64 =
      { s with originalImage := some { originalData := croppedBase64, mimeType := "image/png" }
             , history := [], historyIndex := -1, error := none
             , appState := .READY_TO_EDIT, showCropper := false }
    ∧ (handleCroppedImageSelected s croppedBase64).prompt = s.prompt :=
  ⟨rfl, rfl, rfl⟩

/-- Counterexample for C4: accepting a crop while the prompt box holds
"make it red" transitions to `READY_TO_EDIT` and clears history and error, yet
leaves the prompt intact — refuting that every source replacement clears the
prompt text. -/
theorem C4_counterexample :
    runOps opsC4 =
        handleCroppedImageSelected (runOps (opsC4.take 2)) "data:image/png;base64,crop"
    ∧ (runOps opsC4).appState = AppState.READY_TO_EDIT
    ∧ (runOps opsC4).history = []
    ∧ (runOps opsC4).historyIndex = -1
    ∧ (runOps opsC4).error = none
    ∧ (runOps opsC4).prompt = "make it red"
    ∧ ¬ (runOps opsC4).prompt = "" := by decide

/-- Every rotation state reachable by `handleRotate` clicks from the neutral
state is one of 0, 90, 180, 270. -/
theorem rotation_states (ds : List RotateDir) :
    runRotations ds = 0 ∨ runRotations ds = 90
    ∨ runRotations ds = 180 ∨ runRotations ds = 270 := by
  have hstep : ∀ (r : Int) (d : RotateDir),
      (r = 0 ∨ r = 90 ∨ r = 180 ∨ r = 270) →
      (rotateStep r d = 0 ∨ rotateStep r d = 90
        ∨ rotateStep r d = 180 ∨ rotateStep r d = 270) := by
    intro r d h
    cases d <;> rcases h with h | h | h | h <;> subst h <;> decide
  have hfold : ∀ (l : List RotateDir) (r : Int),
      (r = 0 ∨ r = 90 ∨ r = 180 ∨ r = 270) →
      (l.foldl rotateStep r = 0 ∨ l.foldl rotateStep r = 90
        ∨ l.foldl rotateStep r = 180 ∨ l.foldl rotateStep r = 270) := by
    intro l
    induction l with
    | nil => intro r h; exact h
    | cons d t ih => intro r h; exact ih (rotateStep r d) (hstep r d h)
  exact hfold ds 0 (Or.inl rfl)

/-- C9: the rotation state is always a multiple of 90 wrapped into [0, 360);
two clockwise 90° clicks give the same rotation state — hence the same canvas
dimension outcome — as a single 180° rotation, which leaves the output width
and height equal to the input's, while any rotation not divisible by 180 swaps
the output canvas width and height. -/
theorem C9_rotation_composition :
    (∀ ds : List RotateDir,
        runRotations ds % 90 = 0 ∧ 0 ≤ runRotations ds ∧ runRotations ds < 360)
    ∧ (∀ r : Int, rotateCW (rotateCW r) = (r + 180) % 360)
    ∧ (∀ w h : Nat,
        rotateCW (rotateCW 0) = 180
        ∧ canvasDims (rotateCW (rotateCW 0)) w h = (w, h)
        ∧ canvasDims 180 w h = (w, h))
    ∧ (∀ (r : Int) (w h : Nat), r % 180 ≠ 0 → canvasDims r w h = (h, w)) := by
  refine ⟨?_, ?_, ?_, ?_⟩
  · intro ds
    rcases rotation_states ds with h | h | h | h <;> rw [h] <;>
      exact ⟨by decide, by decide, by decide⟩
  · intro r
    unfold rotateCW
    omega
  · intro w h
    refine ⟨by decide, ?_, ?_⟩ <;> norm_num [canvasDims, rotateCW]
  · intro r w h hr
    unfold canvasDims
    rw [if_pos hr]

/-- Witness for C9: a single 90° rotation state swaps the canvas dimensions. -/
theorem C9_witness :
    ((90 : Int) % 180 ≠ 0) ∧ canvasDims 90 640 480 = (480, 640) :=
  ⟨by decide, C9_rotation_composition.2.2.2 90 640 480 (by decide)⟩

/-- C10: generate always reads its upstream image from the original source —
independent of the history and the cursor, and still the original after a
successful generation, so successive generations re-edit the source rather
than compounding — while denoise/enhance read the currently selected
checkpoint's image, falling back to the source only when the cursor is -1. -/
theorem C10_generate_source_denoise_checkpoint :
    (∀ (s : Session) (hist : List HistoryItem) (idx : Int),
        generateUpstreamImage { s with history := hist, historyIndex := idx }
          = generateUpstreamImage s)
    ∧ (∀ (s : Session) (p : String) (gw gw2 : Gateway) (rz : Resize) (oi : ProcessedImage),
        s.originalImage = some oi →
        gw ((oi.originalData.splitOn ",")[1]?) oi.mimeType p
            (getClosestAspectRatio (s.width : ℚ) (s.height : ℚ))
          = gw2 ((oi.originalData.splitOn ",")[1]?) oi.mimeType p
            (getClosestAspectRatio (s.width : ℚ) (s.height : ℚ)) →
        handleGenerate s p gw rz = handleGenerate s p gw2 rz)
    ∧ (∀ (s : Session) (p : String) (gw : Gateway) (rz : Resize),
        (handleGenerate s p gw rz).originalImage = s.originalImage)
    ∧ (∀ (s : Session) (item : HistoryItem),
        0 ≤ s.historyIndex →
        s.history[s.historyIndex.toNat]? = some item →
        item.image ≠ "" →
        denoiseSourceImage s = some item.image)
    ∧ (∀ (s : Session) (oi : ProcessedImage),
        s.historyIndex = -1 →
        s.originalImage = some oi →
        oi.originalData ≠ "" →
        denoiseSourceImage s = some oi.originalData) := by
  refine ⟨fun _ _ _ => rfl, ?_, ?_, ?_, ?_⟩
  · intro s p gw gw2 rz oi horig hagree
    unfold handleGenerate
    rw [horig]
    dsimp only
    rw [hagree]
  · intro s p gw rz
    unfold handleGenerate
    split
    · rfl
    · dsimp only
      split
      · rfl
      · rfl
  · intro s item hge hitem hne
    simp [denoiseSourceImage, generatedImage, truthyStr, hge, hitem, hne]
  · intro s oi h0 horig hne
    norm_num [denoiseSourceImage, generatedImage, truthyStr, h0, horig, hne]

/-- Witness for C10: the gateway-agreement clause at the sample session with
two gateways that agree on the request actually sent, and the two
source-selection clauses at concrete sessions with cursor 0 and cursor -1. -/
theorem C10_witness :
    handleGenerate sampleSession "p" (okGateway "r") idResize
        = handleGenerate sampleSession "p"
            (fun _ _ pr _ => if pr = "p" then Except.ok "r" else Except.error "wrong prompt")
            idResize
    ∧ denoiseSourceImage sampleSession1 = some sampleItem.image
    ∧ denoiseSourceImage sampleSession = some img0.originalData :=
  ⟨C10_generate_source_denoise_checkpoint.2.1 sampleSession "p" (okGateway "r")
      (fun _ _ pr _ => if pr = "p" then Except.ok "r" else Except.error "wrong prompt")
      idResize img0 rfl rfl
  , C10_generate_source_denoise_checkpoint.2.2.2.1 sampleSession1 sampleItem
      (by decide) (by decide) (by decide)
  , C10_generate_source_denoise_checkpoint.2.2.2.2 sampleSession img0
      (by decide) (by decide) (by decide)⟩

/-- A left fold with step `if f curr < f prev then curr else prev` returns the
first element of `seed :: l` attaining the minimal value of `f`: the list
splits around the result so that everything before it is strictly worse and
everything after it is no better. -/
theorem foldl_pick_first_min {α : Type} (f : α → ℚ) :
    ∀ (l : List α) (a : α),
      ∃ l₁ l₂,
        a :: l = l₁ ++ (l.foldl (fun p q => if f q < f p then q else p) a) :: l₂
        ∧ (∀ x ∈ l₁, f (l.foldl (fun p q => if f q < f p then q else p) a) < f x)
        ∧ (∀ x ∈ l₂, f (l.foldl (fun p q => if f q < f p then q else p) a) ≤ f x) := by
  intro l
  induction l with
  | nil =>
    intro a
    exact ⟨[], [], rfl, by simp, by simp⟩
  | cons c t ih =>
    intro a
    by_cases hc : f c < f a
    · have hred : (c :: t).foldl (fun p q => if f q < f p then q else p) a
          = t.foldl (fun p q => if f q < f p then q else p) c := by
        simp [List.foldl_cons, hc]
      obtain ⟨l₁, l₂, heq, h₁, h₂⟩ := ih c
      rw [hred]
      have hra : f (t.foldl (fun p q => if f q < f p then q else p) c) ≤ f c := by
        rcases l₁ with _ | ⟨y, l₁t⟩
        · simp only [List.nil_append] at heq
          injection heq with h1 h2
          exact le_of_eq (congrArg f h1.symm)
        · rw [List.cons_append] at heq
          injection heq with h1 h2
          have hy := h₁ y (List.mem_cons_self y l₁t)
          rw [← h1] at hy
          exact le_of_lt hy
      refine ⟨a :: l₁, l₂, ?_, ?_, h₂⟩
      · rw [List.cons_append, ← heq]
      · intro x hx
        rcases List.mem_cons.mp hx with rfl | hx'
        · exact lt_of_le_of_lt hra hc
        · exact h₁ x hx'
    · have hred : (c :: t).foldl (fun p q => if f q < f p then q else p) a
          = t.foldl (fun p q => if f q < f p then q else p) a := by
        simp [List.foldl_cons, hc]
      obtain ⟨l₁, l₂, heq, h₁, h₂⟩ := ih a
      rw [hred]
      rcases l₁ with _ | ⟨y, l₁t⟩
      · simp only [List.nil_append] at heq
        injection heq with h1 h2
        refine ⟨[], c :: t, ?_, by simp, ?_⟩
        · rw [List.nil_append, ← h1]
        · intro x hx
          rcases List.mem_cons.mp hx with rfl | hx'
          · rw [← h1]
            exact le_of_not_lt hc
          · exact h₂ x (h2 ▸ hx')
      · rw [List.cons_append] at heq
        injection heq with h1 h2
        have hra : f (t.foldl (fun p q => if f q < f p then q else p) a) < f a := by
          have hy := h₁ y (List.mem_cons_self y l₁t)
          rw [← h1] at hy
          exact hy
        refine ⟨a :: c :: l₁t, l₂, ?_, ?_, h₂⟩
        · rw [List.cons_append, List.cons_append, ← h2]
        · intro x hx
          rcases List.mem_cons.mp hx with rfl | hx'
          · exact hra
          rcases List.mem_cons.mp hx' with rfl | hx''
          · exact lt_of_lt_of_le hra (le_of_not_lt hc)
          · exact h₁ x (List.mem_cons_of_mem y hx'')

/-- C8: for positive target dimensions, `getClosestAspectRatio` returns the
preset with the smallest absolute difference between its value and
`width / height`, ties going to the first preset in left-to-right order (the
presets strictly before the chosen one are strictly farther, the ones after it
no closer); and the four concrete pins hold. -/
theorem C8_aspect_ratio_bucketing :
    (∀ w h : ℚ, 0 < w → 0 < h →
      ∃ l₁ l₂,
        aspectRatios = l₁ ++ closestRatioOption w h :: l₂
        ∧ (∀ x ∈ l₁, |(closestRatioOption w h).value - w / h| < |x.value - w / h|)
        ∧ (∀ x ∈ l₂, |(closestRatioOption w h).value - w / h| ≤ |x.value - w / h|))
    ∧ getClosestAspectRatio 1000 1000 = "1:1"
    ∧ getClosestAspectRatio 1920 1080 = "16:9"
    ∧ getClosestAspectRatio 1080 1920 = "9:16"
    ∧ getClosestAspectRatio 800 600 = "4:3" := by
  refine ⟨?_, ?_, ?_, ?_, ?_⟩
  · intro w h hw hh
    obtain ⟨l₁, l₂, heq, h₁, h₂⟩ :=
      foldl_pick_first_min (fun x : RatioOption => mathAbs (x.value - w / h))
        [ { id := "3:4", value := 3/4 }, { id := "4:3", value := 1333/1000 }
        , { id := "9:16", value := 9/16 }, { id := "16:9", value := 1777/1000 } ]
        { id := "1:1", value := 1 }
    refine ⟨l₁, l₂, heq, ?_, ?_⟩
    · intro x hx
      rw [← mathAbs_eq_abs, ← mathAbs_eq_abs]
      exact h₁ x hx
    · intro x hx
      rw [← mathAbs_eq_abs, ← mathAbs_eq_abs]
      exact h₂ x hx
  · norm_num [getClosestAspectRatio, closestRatioOption, aspectRatios, mathAbs]
  · norm_num [getClosestAspectRatio, closestRatioOption, aspectRatios, mathAbs]
  · norm_num [getClosestAspectRatio, closestRatioOption, aspectRatios, mathAbs]
  · norm_num [getClosestAspectRatio, closestRatioOption, aspectRatios, mathAbs]

/-- Witness for C8: the first-minimum split at the concrete 1920×1080 target. -/
theorem C8_witness :
    (0 : ℚ) < 1920 ∧ (0 : ℚ) < 1080
    ∧ (∃ l₁ l₂,
        aspectRatios = l₁ ++ closestRatioOption 1920 1080 :: l₂
        ∧ (∀ x ∈ l₁,
            |(closestRatioOption 1920 1080).value - 1920 / 1080| < |x.value - 1920 / 1080|)
        ∧ (∀ x ∈ l₂,
            |(closestRatioOption 1920 1080).value - 1920 / 1080| ≤ |x.value - 1920 / 1080|)) :=
  ⟨by norm_num, by norm_num,
    C8_aspect_ratio_bucketing.1 1920 1080 (by norm_num) (by norm_num)⟩

end LuminaForge
